import Mathlib

/-!
Verification of the order lifecycle and risk-gating engine of the trading
repository: a shallow embedding of config.py, error_handler.py,
risk_manager.py, exit_logic.py and order_manager.py, followed by theorems
settling the spec's claims about these modules.

Modelling conventions:
- Python floats are modelled as rationals; all arithmetic in the embedded
  code paths is exact at the inputs considered.
- Wall-clock time is a rational number of seconds supplied explicitly.
- A remote call's outcome (the broker's response, the order-status stream)
  is an explicit input, so each operation is a pure function of its inputs.
- Human-readable reason/message strings keep the source's wording but elide
  the numeric interpolation the source performs.
-/

/- ===== config.py ===== -/

def TARGET_PROFIT_PERCENT : ℚ := 1

def STOP_LOSS : ℚ := -4

def TRAILING_STOP_LOSS_ENABLED : Bool := true

def TRAILING_STOP_LOSS_TRIGGER_PERCENT : ℚ := 3/2

def TRAILING_STOP_LOSS_TRAIL_PERCENT : ℚ := 1

def POSITION_SIZE : ℚ := 50000

def MAX_DAILY_LOSS : ℚ := -10000

def MAX_POSITION_COUNT : ℕ := 3

/- ===== risk_manager.py ===== -/

/-- View of the TradeLedger state read by RiskManager: today's cumulative
profit and loss (database.get_today_pnl()['total_profit_loss']) and the
symbols of the currently open trades (database.get_open_trades()).
The further pnl aggregate fields (win/loss counts, extremes) are not read
by any checked code path and are elided. -/
structure LedgerView where
  todayPnl : ℚ
  openTrades : List String
deriving Repr, DecidableEq

/-- Mutable state of a RiskManager instance (risk_manager.py __init__):
the global trading-enabled flag and the recorded halt reason. -/
structure RiskState where
  trading_enabled : Bool
  halt_reason : Option String
deriving Repr, DecidableEq

/-- Result dict of one individual risk check: the allowed flag and the
reason string (extra payload fields such as pnl / current_count /
existing_position are elided). -/
structure CheckResult where
  allowed : Bool
  reason : String
deriving Repr, DecidableEq

/-- One entry of the checks dict built by can_enter_trade. The first three
entries are check results; the position_value entry is a plain value/range
record with no allowed flag, exactly as in the source. -/
inductive CheckEntry
  | result (allowed : Bool) (reason : String)
  | posValue (value : ℚ) (allowed_range : String)
deriving Repr, DecidableEq

/-- Decision dict returned by can_enter_trade. -/
structure Decision where
  allowed : Bool
  reason : String
  checks : List (String × CheckEntry)
deriving Repr, DecidableEq

/-- RiskManager.check_daily_loss_limit: reject iff today's total P&L is
less than or equal to MAX_DAILY_LOSS. -/
def check_daily_loss_limit (db : LedgerView) : CheckResult :=
  if db.todayPnl ≤ MAX_DAILY_LOSS then
    { allowed := false, reason := "Daily loss limit exceeded" }
  else
    { allowed := true, reason := "Within daily loss limit" }

/-- RiskManager.check_max_positions: reject iff the open-trade count has
reached MAX_POSITION_COUNT. -/
def check_max_positions (db : LedgerView) : CheckResult :=
  if db.openTrades.length ≥ MAX_POSITION_COUNT then
    { allowed := false, reason := "Maximum positions reached" }
  else
    { allowed := true, reason := "Position limit OK" }

/-- RiskManager.check_existing_position: reject iff an open trade already
exists for the given symbol (get_open_trades filtered by symbol is
nonempty). -/
def check_existing_position (db : LedgerView) (tradingsymbol : String) : CheckResult :=
  if (db.openTrades.filter (fun s => s = tradingsymbol)) ≠ [] then
    { allowed := false, reason := "Position already exists for " ++ tradingsymbol }
  else
    { allowed := true, reason := "No existing position" }

/-- RiskManager.halt_trading: clear the enabled flag and record the reason. -/
def halt_trading (st : RiskState) (reason : String) : RiskState :=
  { st with trading_enabled := false, halt_reason := some reason }

/-- RiskManager.resume_trading: set the enabled flag and clear the reason. -/
def resume_trading (st : RiskState) : RiskState :=
  { st with trading_enabled := true, halt_reason := none }

/-- RiskManager.can_enter_trade: gate a proposed entry through (in order)
the global halt flag, the daily loss limit (whose failure also halts
trading), the max position count, the duplicate-position check and the
position-size band, short-circuiting on the first failure. Returns the
updated RiskState (halt_trading is the only mutation) together with the
decision dict. -/
def can_enter_trade (st : RiskState) (db : LedgerView) (tradingsymbol : String)
    (entry_price quantity : ℚ) : RiskState × Decision :=
  if st.trading_enabled = false then
    (st, { allowed := false
         , reason := "Trading halted: " ++ st.halt_reason.getD "None"
         , checks := [] })
  else
    let dlc := check_daily_loss_limit db
    let checks1 := [("daily_loss", CheckEntry.result dlc.allowed dlc.reason)]
    if dlc.allowed = false then
      (halt_trading st dlc.reason,
       { allowed := false, reason := dlc.reason, checks := checks1 })
    else
      let pc := check_max_positions db
      let checks2 := checks1 ++ [("max_positions", CheckEntry.result pc.allowed pc.reason)]
      if pc.allowed = false then
        (st, { allowed := false, reason := pc.reason, checks := checks2 })
      else
        let ec := check_existing_position db tradingsymbol
        let checks3 := checks2 ++ [("existing_position", CheckEntry.result ec.allowed ec.reason)]
        if ec.allowed = false then
          (st, { allowed := false, reason := ec.reason, checks := checks3 })
        else
          let position_value := entry_price * quantity
          let checks4 := checks3 ++
            [("position_value", CheckEntry.posValue position_value "POSITION_SIZE x0.5 - x1.5")]
          if position_value < POSITION_SIZE * (1/2) ∨ position_value > POSITION_SIZE * (3/2) then
            (st, { allowed := false, reason := "Position size out of range", checks := checks4 })
          else
            (st, { allowed := true, reason := "All risk checks passed", checks := checks4 })

/- ===== exit_logic.py : TrailingStopLoss ===== -/

/-- Configuration of a TrailingStopLoss instance (trigger percent, trail
percent, enabled flag). -/
structure TSLConfig where
  trigger_percent : ℚ
  trail_percent : ℚ
  enabled : Bool
deriving Repr, DecidableEq

/-- TrailingStopLoss() built with the config.py defaults. -/
def defaultTSL : TSLConfig :=
  { trigger_percent := TRAILING_STOP_LOSS_TRIGGER_PERCENT
  , trail_percent := TRAILING_STOP_LOSS_TRAIL_PERCENT
  , enabled := TRAILING_STOP_LOSS_ENABLED }

/-- Result dict of TrailingStopLoss.calculate_stop_loss. The disabled
branch of the source omits the max_profit key, modelled as none. -/
structure TSLResult where
  tsl_active : Bool
  stop_loss_price : Option ℚ
  trailing_threshold : Option ℚ
  should_exit : Bool
  max_profit : Option ℚ
deriving Repr, DecidableEq

/-- TrailingStopLoss.calculate_stop_loss: compute the current profit
percentage, update the running peak, activate once the peak reaches the
trigger, and when active compute the trailing threshold, the stop price
and the exit signal. -/
def calculate_stop_loss (cfg : TSLConfig) (entry_price current_price max_profit_seen : ℚ) :
    TSLResult :=
  if cfg.enabled = false then
    { tsl_active := false, stop_loss_price := none, trailing_threshold := none
    , should_exit := false, max_profit := none }
  else
    let current_profit_pct := (current_price - entry_price) / entry_price * 100
    let max_profit := max max_profit_seen current_profit_pct
    if max_profit ≥ cfg.trigger_percent then
      let trailing_threshold := max_profit - cfg.trail_percent
      let stop_loss_price := entry_price * (1 + trailing_threshold / 100)
      { tsl_active := true, stop_loss_price := some stop_loss_price
      , trailing_threshold := some trailing_threshold
      , should_exit := decide (current_profit_pct < trailing_threshold)
      , max_profit := some max_profit }
    else
      { tsl_active := false, stop_loss_price := none, trailing_threshold := none
      , should_exit := false, max_profit := some max_profit }

/- ===== error_handler.py : retry_on_failure and SafeAPIWrapper.place_order ===== -/

/-- Exception taxonomy of error_handler.py (the TradingException subclasses
relevant to order placement). -/
inductive TradingError
  | validation (msg : String)
  | order (msg : String)
  | api (msg : String)
deriving Repr, DecidableEq

/-- Observable trace of one call of a function wrapped by
retry_on_failure: the final result (value or the raised exception),
how many times the wrapped function executed, the backoff sleeps
performed between attempts (in seconds, in order), and how many network
calls the attempts made in total. -/
structure RetryTrace (ε α : Type) where
  result : Except ε α
  attempts : ℕ
  sleeps : List ℚ
  networkCalls : ℕ
deriving Repr

/-- The retry loop of retry_on_failure applied to a deterministic attempt
att (the attempt's result together with the number of network calls it
makes). The first argument of the recursion is the number of retries still
permitted, the second the current backoff delay. On failure with retries
remaining the loop sleeps the current delay, multiplies it by backoff and
re-runs the attempt; otherwise the last error is raised. -/
def retry_exec {ε α : Type} (att : Except ε α × ℕ) (backoff : ℚ) :
    ℕ → ℚ → RetryTrace ε α
  | 0, _ =>
    match att.1 with
    | Except.ok a => { result := Except.ok a, attempts := 1, sleeps := [], networkCalls := att.2 }
    | Except.error e =>
      { result := Except.error e, attempts := 1, sleeps := [], networkCalls := att.2 }
  | n + 1, d =>
    match att.1 with
    | Except.ok a => { result := Except.ok a, attempts := 1, sleeps := [], networkCalls := att.2 }
    | Except.error _ =>
      let rest := retry_exec att backoff n (d * backoff)
      { result := rest.result, attempts := rest.attempts + 1, sleeps := d :: rest.sleeps
      , networkCalls := att.2 + rest.networkCalls }

/-- retry_on_failure(max_retries, delay, backoff) applied to a
deterministic attempt. The decorator catches every Exception (its
exceptions argument is (Exception,) at all SafeAPIWrapper call sites). -/
def retry_on_failure {ε α : Type} (max_retries : ℕ) (delay backoff : ℚ)
    (att : Except ε α × ℕ) : RetryTrace ε α :=
  retry_exec att backoff max_retries delay

/-- The required order parameters checked by SafeAPIWrapper.place_order. -/
def REQUIRED_PARAMS : List String :=
  ["tradingsymbol", "symboltoken", "transactiontype", "exchange",
   "ordertype", "producttype", "quantity"]

/-- Broker response to placeOrder, as inspected by the source: either a
falsy value (None or an empty dict) or a dict with a status flag (the
statusFalse field records whether its status key is the literal False), a
message and an optional data.uniqueorderid. -/
inductive BrokerResponse
  | empty
  | resp (statusFalse : Bool) (message : String) (uniqueorderid : Option String)
deriving Repr, DecidableEq

/-- One execution of the body of SafeAPIWrapper.place_order (the code the
retry decorator wraps), given the parameter keys present in params and the
broker's response to placeOrder. Returns the body's result and the number
of network calls this execution makes: the parameter validation happens
before the network call, so a validation failure makes none. Non-validation
errors are wrapped in OrderException by the body's final except clause. -/
def place_order_attempt (params : List String) (resp : BrokerResponse) :
    Except TradingError BrokerResponse × ℕ :=
  let missing := REQUIRED_PARAMS.filter (fun p => params.contains p = false)
  if missing ≠ [] then
    (Except.error (TradingError.validation
      ("Missing required parameters: " ++ String.intercalate ", " missing)), 0)
  else
    match resp with
    | BrokerResponse.empty =>
      (Except.error (TradingError.order
        "Failed to place order: Empty response from order placement"), 1)
    | BrokerResponse.resp sf msg oid =>
      if sf then
        (Except.error (TradingError.order
          ("Failed to place order: Order placement failed: " ++ msg)), 1)
      else
        (Except.ok (BrokerResponse.resp sf msg oid), 1)

/-- SafeAPIWrapper.place_order: the attempt body wrapped by
retry_on_failure(max_retries=3, delay=2, backoff=2, exceptions=(Exception,)). -/
def place_order (params : List String) (resp : BrokerResponse) :
    RetryTrace TradingError BrokerResponse :=
  retry_on_failure 3 2 2 (place_order_attempt params resp)

/- ===== error_handler.py : CircuitBreaker ===== -/

/-- The three circuit breaker states of error_handler.py. -/
inductive CBState
  | CLOSED
  | OPEN
  | HALF_OPEN
deriving Repr, DecidableEq

/-- CircuitBreaker instance state: configuration (failure_threshold,
timeout) plus the mutable failure_count, last_failure_time and state. -/
structure CircuitBreaker where
  failure_threshold : ℕ
  timeout : ℚ
  failure_count : ℕ
  last_failure_time : Option ℚ
  state : CBState
deriving Repr, DecidableEq

/-- CircuitBreaker.__init__. -/
def CircuitBreaker.init (failure_threshold : ℕ) (timeout : ℚ) : CircuitBreaker :=
  { failure_threshold := failure_threshold, timeout := timeout
  , failure_count := 0, last_failure_time := none, state := CBState.CLOSED }

/-- Outcome of the protected function, had it been invoked. -/
inductive CallOutcome
  | success
  | failure
deriving Repr, DecidableEq

/-- Result of CircuitBreaker.call: the breaker rejection (APIException
raised without invoking the function), the function's value returned, or
the function's exception re-raised. -/
inductive CallResult
  | circuitOpenError
  | succeeded
  | raised
deriving Repr, DecidableEq

/-- Observable output of one CircuitBreaker.call: the new breaker state,
whether the protected function was actually invoked, and the call result. -/
structure CallOutput where
  cb : CircuitBreaker
  invoked : Bool
  result : CallResult
deriving Repr, DecidableEq

/-- CircuitBreaker.call at wall-clock time now, where outcome is what the
protected function would do if invoked. When the state is OPEN and the
timeout has not elapsed since the last failure the call is rejected
without invoking the function; when it has elapsed the state moves to
HALF_OPEN and the function runs. A success in HALF_OPEN closes the breaker
and resets the failure count; a failure increments the count, refreshes
last_failure_time and opens the breaker once the count reaches the
threshold. (In the source last_failure_time is never None while the state
is OPEN, so the getD 0 default is unreachable there.) -/
def CircuitBreaker.call (cb : CircuitBreaker) (now : ℚ) (outcome : CallOutcome) : CallOutput :=
  if cb.state = CBState.OPEN ∧ ¬(now - cb.last_failure_time.getD 0 > cb.timeout) then
    { cb := cb, invoked := false, result := CallResult.circuitOpenError }
  else
    let cb1 := if cb.state = CBState.OPEN then { cb with state := CBState.HALF_OPEN } else cb
    match outcome with
    | CallOutcome.success =>
      if cb1.state = CBState.HALF_OPEN then
        { cb := { cb1 with state := CBState.CLOSED, failure_count := 0 }
        , invoked := true, result := CallResult.succeeded }
      else
        { cb := cb1, invoked := true, result := CallResult.succeeded }
    | CallOutcome.failure =>
      let cnt := cb1.failure_count + 1
      let cb2 := { cb1 with failure_count := cnt, last_failure_time := some now }
      if cnt ≥ cb1.failure_threshold then
        { cb := { cb2 with state := CBState.OPEN }, invoked := true, result := CallResult.raised }
      else
        { cb := cb2, invoked := true, result := CallResult.raised }

/-- CircuitBreaker.reset: manually close the breaker and clear the counters. -/
def CircuitBreaker.reset (cb : CircuitBreaker) : CircuitBreaker :=
  { cb with state := CBState.CLOSED, failure_count := 0, last_failure_time := none }

/-- Run a sequence of protected calls, each a (time, outcome) pair, through
the breaker, keeping the final breaker state. -/
def CBrun (cb : CircuitBreaker) (steps : List (ℚ × CallOutcome)) : CircuitBreaker :=
  steps.foldl (fun c s => (CircuitBreaker.call c s.1 s.2).cb) cb

/- ===== order_manager.py ===== -/

/-- validate_order_response of error_handler.py: returns
(is_valid, error_message, order_id). A falsy response, a status of False,
a missing data.uniqueorderid or a falsy (empty) order id are invalid. -/
def validate_order_response : BrokerResponse → Bool × String × Option String
  | BrokerResponse.empty => (false, "Empty response", none)
  | BrokerResponse.resp sf msg oid =>
    if sf then (false, msg, none)
    else
      match oid with
      | none => (false, "Order ID not found in response", none)
      | some s =>
        if s = "" then (false, "Order ID not found in response", none)
        else (true, "Success", some s)

/-- One poll of get_order_details inside confirm_order_placement: either a
response carrying the order status (compared lowercased in the source; the
statuses here are taken already lowercased) and the filledshares count, or
an exception from the lookup (which the loop logs, sleeps through and
retries). -/
inductive PollOutcome
  | ok (status : String) (filledshares : ℕ)
  | exn
deriving Repr, DecidableEq

/-- A poll outcome that is neither a terminal status nor a fill: the loop
keeps polling on it. -/
def nonTerminalPoll : PollOutcome → Prop
  | PollOutcome.exn => True
  | PollOutcome.ok st _ => st ≠ "complete" ∧ st ≠ "rejected" ∧ st ≠ "cancelled"

/-- Confirmation dict returned by confirm_order_placement. -/
structure Confirmation where
  confirmed : Bool
  status : String
  fill_price : Option ℚ
  fill_quantity : Option ℕ
  fill_time : Option String
deriving Repr, DecidableEq

/-- The timeout result of confirm_order_placement. -/
def timeout_confirmation : Confirmation :=
  { confirmed := false, status := "timeout", fill_price := none
  , fill_quantity := none, fill_time := none }

/-- The fixed polling interval of confirm_order_placement, in seconds. -/
def check_interval : ℕ := 1

/-- The polling loop of confirm_order_placement: polls is the stream of
get_order_details outcomes, trade_book the (fill_price, fill_time) that
get_trade_book_details would report, i the index of the next poll and the
last argument the remaining whole seconds of the max_wait budget (each
non-terminal poll sleeps check_interval = 1 second, consuming one unit; a
poll happens only while budget remains). A complete status returns the
confirmation with the fill price/time from the trade book and the
filledshares of that poll; rejected or cancelled return immediately
unconfirmed; anything else polls again. -/
def confirm_from (polls : ℕ → PollOutcome) (trade_book : Option (ℚ × String)) :
    ℕ → ℕ → Confirmation
  | _, 0 => timeout_confirmation
  | i, fuel + 1 =>
    match polls i with
    | PollOutcome.exn => confirm_from polls trade_book (i + 1) fuel
    | PollOutcome.ok st fs =>
      if st = "complete" then
        match trade_book with
        | some (fp, ft) =>
          { confirmed := true, status := "complete", fill_price := some fp
          , fill_quantity := some fs, fill_time := some ft }
        | none =>
          { confirmed := true, status := "complete", fill_price := none
          , fill_quantity := some fs, fill_time := none }
      else if st = "rejected" ∨ st = "cancelled" then
        { confirmed := false, status := st, fill_price := none
        , fill_quantity := none, fill_time := none }
      else
        confirm_from polls trade_book (i + 1) fuel

/-- OrderManager.confirm_order_placement(order_id, max_wait): run the
polling loop from the first poll with the full max_wait budget. -/
def confirm_order_placement (polls : ℕ → PollOutcome) (trade_book : Option (ℚ × String))
    (max_wait : ℕ) : Confirmation :=
  confirm_from polls trade_book 0 max_wait

/-- Result dict of place_buy_order / place_sell_order. -/
structure OrderResult where
  success : Bool
  order_id : Option String
  message : String
  response : Option BrokerResponse
  confirmation : Option Confirmation
deriving Repr, DecidableEq

/-- The message of the exception a failed place_order raises. -/
def tradingErrorMessage : TradingError → String
  | TradingError.validation msg => msg
  | TradingError.order msg => msg
  | TradingError.api msg => msg

/-- The parameter keys of the order dict built by place_buy_order. -/
def BUY_ORDER_PARAM_KEYS : List String :=
  ["variety", "tradingsymbol", "symboltoken", "transactiontype", "exchange",
   "ordertype", "producttype", "duration", "price", "quantity"]

/-- The parameter keys of the order dict built by place_sell_order before
the LIMIT-only price key is added. -/
def SELL_ORDER_PARAM_KEYS : List String :=
  ["variety", "tradingsymbol", "symboltoken", "transactiontype", "exchange",
   "ordertype", "producttype", "duration", "quantity"]

/-- OrderManager.place_buy_order, as a function of the broker's placeOrder
response and of the confirmation poll stream / trade book: place the order
through SafeAPIWrapper.place_order, validate the response, and on a valid
order id confirm with max_wait = 5 and return success together with the
confirmation; an invalid response or a raised exception returns failure. -/
def place_buy_order (resp : BrokerResponse) (polls : ℕ → PollOutcome)
    (trade_book : Option (ℚ × String)) : OrderResult :=
  let trace := place_order BUY_ORDER_PARAM_KEYS resp
  match trace.result with
  | Except.error e =>
    { success := false, order_id := none, message := tradingErrorMessage e
    , response := none, confirmation := none }
  | Except.ok r =>
    match validate_order_response r with
    | (false, msg, _) =>
      { success := false, order_id := none, message := msg
      , response := some r, confirmation := none }
    | (true, _, oid) =>
      let confirmation := confirm_order_placement polls trade_book 5
      { success := true, order_id := oid, message := "Order placed and confirmed"
      , response := some r, confirmation := some confirmation }

/-- OrderManager.place_sell_order: same shape as place_buy_order; a LIMIT
order without an exit price fails fast, a LIMIT order adds the price key
to the parameters. -/
def place_sell_order (order_type : String) (exit_price : Option ℚ)
    (resp : BrokerResponse) (polls : ℕ → PollOutcome)
    (trade_book : Option (ℚ × String)) : OrderResult :=
  if order_type = "LIMIT" ∧ exit_price = none then
    { success := false, order_id := none, message := "Exit price required for LIMIT orders"
    , response := none, confirmation := none }
  else
    let params := if order_type = "LIMIT" then SELL_ORDER_PARAM_KEYS ++ ["price"]
                  else SELL_ORDER_PARAM_KEYS
    let trace := place_order params resp
    match trace.result with
    | Except.error e =>
      { success := false, order_id := none, message := tradingErrorMessage e
      , response := none, confirmation := none }
    | Except.ok r =>
      match validate_order_response r with
      | (false, msg, _) =>
        { success := false, order_id := none, message := msg
        , response := some r, confirmation := none }
      | (true, _, oid) =>
        let confirmation := confirm_order_placement polls trade_book 5
        { success := true, order_id := oid, message := "Order placed and confirmed"
        , response := some r, confirmation := some confirmation }

/-- The buy-order parameter keys with the quantity key missing: the
concrete failing input for the validation-retry analysis. -/
def BUY_PARAMS_NO_QUANTITY : List String :=
  ["variety", "tradingsymbol", "symboltoken", "transactiontype", "exchange",
   "ordertype", "producttype", "duration", "price"]

/-- Poll stream delivering open, open, then complete with the given
filledshares. -/
def openOpenComplete (fs : ℕ) : ℕ → PollOutcome :=
  fun i => if i < 2 then PollOutcome.ok "open" 0 else PollOutcome.ok "complete" fs

/-- Poll stream whose first answer is already rejected. -/
def rejectedPolls : ℕ → PollOutcome :=
  fun _ => PollOutcome.ok "rejected" 0

/-- A protected-call sequence of failures separated by successes:
five failures interleaved with four successes. -/
def alternatingSteps : List (ℚ × CallOutcome) :=
  [(0, CallOutcome.failure), (1, CallOutcome.success), (2, CallOutcome.failure),
   (3, CallOutcome.success), (4, CallOutcome.failure), (5, CallOutcome.success),
   (6, CallOutcome.failure), (7, CallOutcome.success), (8, CallOutcome.failure)]

/- ===== Helper lemmas ===== -/

/-- When the halt flag, daily-loss, position-count and duplicate checks
all pass, can_enter_trade reduces to the position-size band decision over
the full four-entry checks list. -/
theorem can_enter_trade_band_case (st : RiskState) (db : LedgerView) (sym : String) (p q : ℚ)
    (hen : st.trading_enabled = true)
    (h1 : (check_daily_loss_limit db).allowed = true)
    (h2 : (check_max_positions db).allowed = true)
    (h3 : (check_existing_position db sym).allowed = true) :
    can_enter_trade st db sym p q =
      (st,
       if p * q < POSITION_SIZE * (1/2) ∨ p * q > POSITION_SIZE * (3/2) then
         { allowed := false, reason := "Position size out of range"
         , checks :=
            [("daily_loss", CheckEntry.result true (check_daily_loss_limit db).reason),
             ("max_positions", CheckEntry.result true (check_max_positions db).reason),
             ("existing_position", CheckEntry.result true (check_existing_position db sym).reason),
             ("position_value", CheckEntry.posValue (p * q) "POSITION_SIZE x0.5 - x1.5")] }
       else
         { allowed := true, reason := "All risk checks passed"
         , checks :=
            [("daily_loss", CheckEntry.result true (check_daily_loss_limit db).reason),
             ("max_positions", CheckEntry.result true (check_max_positions db).reason),
             ("existing_position", CheckEntry.result true (check_existing_position db sym).reason),
             ("position_value", CheckEntry.posValue (p * q) "POSITION_SIZE x0.5 - x1.5")] }) := by
  simp [can_enter_trade, hen, h1, h2, h3]
  split <;> rfl

/- ===== Claim theorems ===== -/

/-- C2: when trading is enabled and today's cumulative P&L is less than or
equal to MAX_DAILY_LOSS (the boundary is inclusive), can_enter_trade
rejects the entry and halts trading as a side effect, recording the
daily-loss reason; every subsequent can_enter_trade call on the halted
state rejects with the recorded halt reason and leaves the state
unchanged, until resume_trading re-enables trading. -/
theorem daily_loss_breach_halts (st : RiskState) (db : LedgerView)
    (sym : String) (p q : ℚ)
    (hen : st.trading_enabled = true) (hp : db.todayPnl ≤ MAX_DAILY_LOSS) :
    (can_enter_trade st db sym p q).2.allowed = false ∧
    (can_enter_trade st db sym p q).1.trading_enabled = false ∧
    (can_enter_trade st db sym p q).1.halt_reason = some "Daily loss limit exceeded" ∧
    (∀ (db' : LedgerView) (sym' : String) (p' q' : ℚ),
      (can_enter_trade (can_enter_trade st db sym p q).1 db' sym' p' q').2.allowed = false ∧
      (can_enter_trade (can_enter_trade st db sym p q).1 db' sym' p' q').2.reason =
        "Trading halted: " ++ ((can_enter_trade st db sym p q).1.halt_reason.getD "None") ∧
      (can_enter_trade (can_enter_trade st db sym p q).1 db' sym' p' q').1 =
        (can_enter_trade st db sym p q).1) ∧
    (resume_trading (can_enter_trade st db sym p q).1).trading_enabled = true := by
  have hdl : check_daily_loss_limit db =
      { allowed := false, reason := "Daily loss limit exceeded" } := by
    simp [check_daily_loss_limit, hp]
  simp [can_enter_trade, hen, hdl, halt_trading, resume_trading]

/-- C2 witness: at the exact boundary (today's P&L equal to
MAX_DAILY_LOSS = -10000) the entry is rejected. -/
theorem daily_loss_breach_halts_witness :
    (can_enter_trade { trading_enabled := true, halt_reason := none }
      { todayPnl := -10000, openTrades := [] } "TCS" 100 5).2.allowed = false :=
  (daily_loss_breach_halts _ _ "TCS" 100 5 rfl (by norm_num [MAX_DAILY_LOSS])).1

/-- C3 counterexample: with the daily-loss check failing, the returned
decision contains only the daily_loss check result — one entry, not all
five check results. -/
theorem can_enter_checks_single_entry :
    ((can_enter_trade { trading_enabled := true, halt_reason := none }
        { todayPnl := -10000, openTrades := [] } "TCS" 100 5).2.checks.map Prod.fst
      = ["daily_loss"]) ∧
    ((can_enter_trade { trading_enabled := true, halt_reason := none }
        { todayPnl := -10000, openTrades := [] } "TCS" 100 5).2.checks.length ≠ 5) := by
  have hdl : check_daily_loss_limit { todayPnl := -10000, openTrades := [] } =
      { allowed := false, reason := "Daily loss limit exceeded" } := by
    norm_num [check_daily_loss_limit, MAX_DAILY_LOSS]
  simp [can_enter_trade, hdl, halt_trading]

/-- C3 amended: can_enter_trade evaluates its checks in the fixed order
(halt flag, daily loss, position count, duplicate position, size band) and
short-circuits on the first failure; the returned decision contains the
results of exactly the checks evaluated so far — a prefix of
daily_loss, max_positions, existing_position, position_value — and the
halt-flag check contributes no entry (checks is empty when halted). -/
theorem can_enter_checks_order (st : RiskState) (db : LedgerView) (sym : String) (p q : ℚ) :
    (st.trading_enabled = false →
      (can_enter_trade st db sym p q).2.allowed = false ∧
      (can_enter_trade st db sym p q).2.checks = []) ∧
    (st.trading_enabled = true →
      ((check_daily_loss_limit db).allowed = false →
        (can_enter_trade st db sym p q).2.allowed = false ∧
        (can_enter_trade st db sym p q).2.checks.map Prod.fst = ["daily_loss"]) ∧
      ((check_daily_loss_limit db).allowed = true →
        ((check_max_positions db).allowed = false →
          (can_enter_trade st db sym p q).2.allowed = false ∧
          (can_enter_trade st db sym p q).2.checks.map Prod.fst =
            ["daily_loss", "max_positions"]) ∧
        ((check_max_positions db).allowed = true →
          ((check_existing_position db sym).allowed = false →
            (can_enter_trade st db sym p q).2.allowed = false ∧
            (can_enter_trade st db sym p q).2.checks.map Prod.fst =
              ["daily_loss", "max_positions", "existing_position"]) ∧
          ((check_existing_position db sym).allowed = true →
            (can_enter_trade st db sym p q).2.checks.map Prod.fst =
              ["daily_loss", "max_positions", "existing_position", "position_value"] ∧
            ((can_enter_trade st db sym p q).2.allowed = true ↔
              POSITION_SIZE * (1/2) ≤ p * q ∧ p * q ≤ POSITION_SIZE * (3/2)))))) := by
  refine ⟨fun hen => ?_,
          fun hen => ⟨fun h1 => ?_,
          fun h1 => ⟨fun h2 => ?_,
          fun h2 => ⟨fun h3 => ?_,
          fun h3 => ?_⟩⟩⟩⟩
  · simp [can_enter_trade, hen]
  · simp [can_enter_trade, hen, h1]
  · simp [can_enter_trade, hen, h1, h2]
  · simp [can_enter_trade, hen, h1, h2, h3]
  · rw [can_enter_trade_band_case st db sym p q hen h1 h2 h3]
    constructor
    · split <;> rfl
    · split_ifs with hc
      · simp only [Bool.false_eq_true, false_iff, not_and, not_le]
        intro hlo
        rcases hc with hlt | hgt
        · exact absurd hlo (not_le.mpr hlt)
        · exact hgt
      · push_neg at hc
        simp only [true_iff]
        exact ⟨hc.1, hc.2⟩

/-- C3 amended witness: with a clean state and an in-band position, all
four evaluated check entries appear in order. -/
theorem can_enter_checks_order_witness :
    (can_enter_trade { trading_enabled := true, halt_reason := none }
      { todayPnl := 0, openTrades := [] } "TCS" 100 250).2.checks.map Prod.fst =
      ["daily_loss", "max_positions", "existing_position", "position_value"] := by
  have h := can_enter_checks_order { trading_enabled := true, halt_reason := none }
    { todayPnl := 0, openTrades := [] } "TCS" 100 250
  refine ((((h.2 rfl).2 ?_).2 ?_).2 ?_).1
  · norm_num [check_daily_loss_limit, MAX_DAILY_LOSS]
  · norm_num [check_max_positions, MAX_POSITION_COUNT]
  · norm_num [check_existing_position]

/-- C8: provided the earlier checks pass (trading enabled, daily P&L
strictly above the limit, position count below the maximum, no open
position for the symbol), can_enter_trade accepts exactly when
price x quantity lies in the closed band from POSITION_SIZE x 0.5 to
POSITION_SIZE x 1.5, boundaries included. -/
theorem position_size_band (st : RiskState) (db : LedgerView) (sym : String) (p q : ℚ)
    (hen : st.trading_enabled = true)
    (hdl : MAX_DAILY_LOSS < db.todayPnl)
    (hpc : db.openTrades.length < MAX_POSITION_COUNT)
    (hex : db.openTrades.filter (fun s => s = sym) = []) :
    (can_enter_trade st db sym p q).2.allowed = true ↔
      POSITION_SIZE * (1/2) ≤ p * q ∧ p * q ≤ POSITION_SIZE * (3/2) := by
  have h1 : (check_daily_loss_limit db).allowed = true := by
    simp [check_daily_loss_limit, not_le.mpr hdl]
  have h2 : (check_max_positions db).allowed = true := by
    simp [check_max_positions, not_le.mpr hpc]
  have h3 : (check_existing_position db sym).allowed = true := by
    simp [check_existing_position, hex]
  rw [can_enter_trade_band_case st db sym p q hen h1 h2 h3]
  split_ifs with hc
  · simp only [Bool.false_eq_true, false_iff, not_and, not_le]
    intro hlo
    rcases hc with hlt | hgt
    · exact absurd hlo (not_le.mpr hlt)
    · exact hgt
  · push_neg at hc
    simp only [true_iff]
    exact ⟨hc.1, hc.2⟩

/-- C8 witness: a position value exactly at the lower boundary
(100 x 250 = 25000 = 0.5 x POSITION_SIZE) is accepted. -/
theorem position_size_band_witness :
    (can_enter_trade { trading_enabled := true, halt_reason := none }
      { todayPnl := 0, openTrades := [] } "TCS" 100 250).2.allowed = true :=
  (position_size_band _ _ "TCS" 100 250 rfl
      (by norm_num [MAX_DAILY_LOSS]) (by norm_num [MAX_POSITION_COUNT]) (by simp)).mpr
    (by norm_num [POSITION_SIZE])

/-- With the trailing stop enabled and the updated peak at or above the
trigger, calculate_stop_loss returns the active record with the trailing
threshold, the stop price and the exit comparison. -/
theorem calculate_stop_loss_active (cfg : TSLConfig) (entry current maxSeen : ℚ)
    (hen : cfg.enabled = true)
    (hact : max maxSeen ((current - entry) / entry * 100) ≥ cfg.trigger_percent) :
    calculate_stop_loss cfg entry current maxSeen =
      { tsl_active := true
      , stop_loss_price := some (entry *
          (1 + (max maxSeen ((current - entry) / entry * 100) - cfg.trail_percent) / 100))
      , trailing_threshold :=
          some (max maxSeen ((current - entry) / entry * 100) - cfg.trail_percent)
      , should_exit := decide ((current - entry) / entry * 100 <
          max maxSeen ((current - entry) / entry * 100) - cfg.trail_percent)
      , max_profit := some (max maxSeen ((current - entry) / entry * 100)) } := by
  simp [calculate_stop_loss, hen, hact]

/-- With the trailing stop enabled and the updated peak below the trigger,
calculate_stop_loss returns the inactive record: no stop price, no exit. -/
theorem calculate_stop_loss_inactive (cfg : TSLConfig) (entry current maxSeen : ℚ)
    (hen : cfg.enabled = true)
    (hinact : ¬ max maxSeen ((current - entry) / entry * 100) ≥ cfg.trigger_percent) :
    calculate_stop_loss cfg entry current maxSeen =
      { tsl_active := false, stop_loss_price := none, trailing_threshold := none
      , should_exit := false
      , max_profit := some (max maxSeen ((current - entry) / entry * 100)) } := by
  simp [calculate_stop_loss, hen, hinact]

/-- C4: with the trailing stop enabled (the default configuration), for any
nonzero entry price, calculate_stop_loss computes the current profit
percentage p and the updated peak m = max(maxSeen, p); it is active iff
m reaches the trigger 1.5; inactive means no exit and no stop price;
active gives threshold m - 1, stop price entry x (1 + threshold/100) and
exit iff p < threshold. At entry 100: price 103 gives active with
threshold 2, stop 102 and no exit; then price 101.5 (peak 3 retained)
gives exit with threshold still 2. -/
theorem trailing_stop_spec (entry current maxSeen : ℚ) (he : entry ≠ 0) :
    ((calculate_stop_loss defaultTSL entry current maxSeen).tsl_active = true ↔
      TRAILING_STOP_LOSS_TRIGGER_PERCENT ≤ max maxSeen ((current - entry) / entry * 100)) ∧
    ((calculate_stop_loss defaultTSL entry current maxSeen).max_profit =
      some (max maxSeen ((current - entry) / entry * 100))) ∧
    ((calculate_stop_loss defaultTSL entry current maxSeen).tsl_active = false →
      (calculate_stop_loss defaultTSL entry current maxSeen).should_exit = false ∧
      (calculate_stop_loss defaultTSL entry current maxSeen).stop_loss_price = none) ∧
    ((calculate_stop_loss defaultTSL entry current maxSeen).tsl_active = true →
      (calculate_stop_loss defaultTSL entry current maxSeen).trailing_threshold =
        some (max maxSeen ((current - entry) / entry * 100) -
          TRAILING_STOP_LOSS_TRAIL_PERCENT) ∧
      (calculate_stop_loss defaultTSL entry current maxSeen).stop_loss_price =
        some (entry * (1 + (max maxSeen ((current - entry) / entry * 100) -
          TRAILING_STOP_LOSS_TRAIL_PERCENT) / 100)) ∧
      ((calculate_stop_loss defaultTSL entry current maxSeen).should_exit = true ↔
        (current - entry) / entry * 100 <
          max maxSeen ((current - entry) / entry * 100) -
            TRAILING_STOP_LOSS_TRAIL_PERCENT)) ∧
    (calculate_stop_loss defaultTSL 100 103 0 =
      { tsl_active := true, stop_loss_price := some 102, trailing_threshold := some 2
      , should_exit := false, max_profit := some 3 }) ∧
    ((calculate_stop_loss defaultTSL 100 (203/2) 3).should_exit = true ∧
     (calculate_stop_loss defaultTSL 100 (203/2) 3).trailing_threshold = some 2) := by
  have hmax1 : max (0:ℚ) ((103 - 100) / 100 * 100) = 3 := by
    rw [max_eq_right] <;> norm_num
  have hmax2 : max (3:ℚ) ((203/2 - 100) / 100 * 100) = 3 := by
    rw [max_eq_left] <;> norm_num
  refine ⟨?_, ?_, ?_, ?_, ?_, ?_⟩
  · by_cases hact : max maxSeen ((current - entry) / entry * 100) ≥
        defaultTSL.trigger_percent
    · rw [calculate_stop_loss_active defaultTSL entry current maxSeen rfl hact]
      simpa [defaultTSL] using hact
    · rw [calculate_stop_loss_inactive defaultTSL entry current maxSeen rfl hact]
      simpa [defaultTSL] using hact
  · by_cases hact : max maxSeen ((current - entry) / entry * 100) ≥
        defaultTSL.trigger_percent
    · rw [calculate_stop_loss_active defaultTSL entry current maxSeen rfl hact]
    · rw [calculate_stop_loss_inactive defaultTSL entry current maxSeen rfl hact]
  · by_cases hact : max maxSeen ((current - entry) / entry * 100) ≥
        defaultTSL.trigger_percent
    · rw [calculate_stop_loss_active defaultTSL entry current maxSeen rfl hact]
      intro hcontra
      exact absurd hcontra (by simp)
    · rw [calculate_stop_loss_inactive defaultTSL entry current maxSeen rfl hact]
      intro
      exact ⟨rfl, rfl⟩
  · by_cases hact : max maxSeen ((current - entry) / entry * 100) ≥
        defaultTSL.trigger_percent
    · rw [calculate_stop_loss_active defaultTSL entry current maxSeen rfl hact]
      intro
      refine ⟨rfl, rfl, ?_⟩
      simp [defaultTSL]
    · rw [calculate_stop_loss_inactive defaultTSL entry current maxSeen rfl hact]
      intro hcontra
      exact absurd hcontra (by simp)
  · rw [calculate_stop_loss_active defaultTSL 100 103 0 rfl
        (by rw [hmax1]; norm_num [defaultTSL, TRAILING_STOP_LOSS_TRIGGER_PERCENT])]
    rw [hmax1]
    norm_num [defaultTSL, TRAILING_STOP_LOSS_TRAIL_PERCENT]
  · constructor
    · rw [calculate_stop_loss_active defaultTSL 100 (203/2) 3 rfl
          (by rw [hmax2]; norm_num [defaultTSL, TRAILING_STOP_LOSS_TRIGGER_PERCENT])]
      rw [hmax2]
      norm_num [defaultTSL, TRAILING_STOP_LOSS_TRAIL_PERCENT]
    · rw [calculate_stop_loss_active defaultTSL 100 (203/2) 3 rfl
          (by rw [hmax2]; norm_num [defaultTSL, TRAILING_STOP_LOSS_TRIGGER_PERCENT])]
      rw [hmax2]
      norm_num [defaultTSL, TRAILING_STOP_LOSS_TRAIL_PERCENT]

/-- C4 witness: the example instance at entry 100, price 103, fresh peak. -/
theorem trailing_stop_spec_witness :
    calculate_stop_loss defaultTSL 100 103 0 =
      { tsl_active := true, stop_loss_price := some 102, trailing_threshold := some 2
      , should_exit := false, max_profit := some 3 } :=
  (trailing_stop_spec 100 103 0 (by norm_num)).2.2.2.2.1

/-- Unfolding of the retry loop on a deterministically failing attempt,
with retries remaining: run the attempt, sleep the current delay, recurse
with the delay multiplied by backoff. -/
theorem retry_exec_error_succ {ε α : Type} (e : ε) (nc : ℕ) (backoff : ℚ) (n : ℕ) (d : ℚ) :
    retry_exec ((Except.error e : Except ε α), nc) backoff (n + 1) d =
      { result := (retry_exec ((Except.error e : Except ε α), nc) backoff n (d * backoff)).result
      , attempts := (retry_exec ((Except.error e : Except ε α), nc) backoff n (d * backoff)).attempts + 1
      , sleeps := d :: (retry_exec ((Except.error e : Except ε α), nc) backoff n (d * backoff)).sleeps
      , networkCalls :=
          nc + (retry_exec ((Except.error e : Except ε α), nc) backoff n (d * backoff)).networkCalls } := by
  simp [retry_exec]

/-- Unfolding of the retry loop on a deterministically failing attempt
with no retries remaining: the last error is raised. -/
theorem retry_exec_error_zero {ε α : Type} (e : ε) (nc : ℕ) (backoff : ℚ) (d : ℚ) :
    retry_exec ((Except.error e : Except ε α), nc) backoff 0 d =
      { result := Except.error e, attempts := 1, sleeps := [], networkCalls := nc } := by
  simp [retry_exec]

/-- A successful attempt returns on the first try for any fuel. -/
theorem retry_exec_ok {ε α : Type} (a : α) (nc : ℕ) (backoff : ℚ) (fuel : ℕ) (d : ℚ) :
    retry_exec ((Except.ok a : Except ε α), nc) backoff fuel d =
      { result := Except.ok a, attempts := 1, sleeps := [], networkCalls := nc } := by
  cases fuel <;> simp [retry_exec]

/-- C1 (behaviour of the code at the claim's failing input): when a
required order parameter is missing, SafeAPIWrapper.place_order makes no
network call, but it does not abort before the retry loop: the validation
failure is retried — 4 attempts in total, with backoff sleeps of 2, 4 and
8 seconds — before the ValidationException is raised, because the retry
decorator catches every Exception, including ValidationException. -/
theorem place_order_missing_param_retries (params : List String) (resp : BrokerResponse)
    (hmiss : REQUIRED_PARAMS.filter (fun p => params.contains p = false) ≠ []) :
    (place_order params resp).networkCalls = 0 ∧
    (place_order params resp).attempts = 4 ∧
    (place_order params resp).sleeps = [2, 4, 8] ∧
    (place_order params resp).result = Except.error (TradingError.validation
      ("Missing required parameters: " ++ String.intercalate ", "
        (REQUIRED_PARAMS.filter (fun p => params.contains p = false)))) := by
  have hatt : place_order_attempt params resp =
      (Except.error (TradingError.validation
        ("Missing required parameters: " ++ String.intercalate ", "
          (REQUIRED_PARAMS.filter (fun p => params.contains p = false)))), 0) := by
    simp only [place_order_attempt]
    rw [if_pos hmiss]
  simp only [place_order, retry_on_failure, hatt]
  rw [show (3:ℕ) = 2 + 1 from rfl, retry_exec_error_succ,
      show (2:ℕ) = 1 + 1 from rfl, retry_exec_error_succ,
      show (1:ℕ) = 0 + 1 from rfl, retry_exec_error_succ, retry_exec_error_zero]
  norm_num

/-- C1 witness: the buy-order parameter set with the quantity key removed
is missing a required parameter, and the wrapped place_order call then
performs 4 attempts and 3 backoff sleeps with zero network calls. -/
theorem place_order_missing_param_retries_witness :
    (place_order BUY_PARAMS_NO_QUANTITY BrokerResponse.empty).networkCalls = 0 ∧
    (place_order BUY_PARAMS_NO_QUANTITY BrokerResponse.empty).attempts = 4 ∧
    (place_order BUY_PARAMS_NO_QUANTITY BrokerResponse.empty).sleeps = [2, 4, 8] :=
  ⟨(place_order_missing_param_retries BUY_PARAMS_NO_QUANTITY BrokerResponse.empty (by decide)).1,
   (place_order_missing_param_retries BUY_PARAMS_NO_QUANTITY BrokerResponse.empty (by decide)).2.1,
   (place_order_missing_param_retries BUY_PARAMS_NO_QUANTITY BrokerResponse.empty (by decide)).2.2.1⟩

/-- CircuitBreaker.call never changes the configured failure threshold. -/
theorem call_preserves_threshold (cb : CircuitBreaker) (now : ℚ) (o : CallOutcome) :
    (cb.call now o).cb.failure_threshold = cb.failure_threshold := by
  cases o <;> simp only [CircuitBreaker.call] <;> split_ifs <;> rfl

/-- One CircuitBreaker.call preserves the invariant that a CLOSED breaker
has its failure count strictly below the threshold. -/
theorem call_closed_bound (cb : CircuitBreaker) (now : ℚ) (o : CallOutcome)
    (ht : 1 ≤ cb.failure_threshold)
    (hcb : cb.state = CBState.CLOSED → cb.failure_count < cb.failure_threshold) :
    (cb.call now o).cb.state = CBState.CLOSED →
      (cb.call now o).cb.failure_count < (cb.call now o).cb.failure_threshold := by
  rcases hs : cb.state <;> cases o <;>
    simp only [CircuitBreaker.call, hs] <;>
    split_ifs <;>
    simp_all <;>
    omega

/-- A call that moves a CLOSED breaker (whose count is below the
threshold) to OPEN leaves the count exactly at the threshold. -/
theorem call_closed_to_open_count (cb : CircuitBreaker) (now : ℚ) (o : CallOutcome)
    (hc : cb.state = CBState.CLOSED)
    (hlt : cb.failure_count < cb.failure_threshold)
    (ho : (cb.call now o).cb.state = CBState.OPEN) :
    (cb.call now o).cb.failure_count = cb.failure_threshold := by
  cases o <;>
    simp only [CircuitBreaker.call, hc] at ho ⊢ <;>
    split_ifs at ho ⊢ <;>
    simp_all <;>
    omega

/-- A successful call on a CLOSED breaker leaves the breaker unchanged. -/
theorem call_closed_success_id (cb : CircuitBreaker) (now : ℚ)
    (hc : cb.state = CBState.CLOSED) :
    (cb.call now CallOutcome.success).cb = cb := by
  simp [CircuitBreaker.call, hc]

/-- Unfolding CBrun over a first step. -/
theorem CBrun_cons (cb : CircuitBreaker) (s : ℚ × CallOutcome)
    (steps : List (ℚ × CallOutcome)) :
    CBrun cb (s :: steps) = CBrun ((CircuitBreaker.call cb s.1 s.2).cb) steps := rfl

/-- CBrun never changes the configured failure threshold. -/
theorem CBrun_threshold (steps : List (ℚ × CallOutcome)) :
    ∀ cb : CircuitBreaker, (CBrun cb steps).failure_threshold = cb.failure_threshold := by
  induction steps with
  | nil => intro cb; rfl
  | cons s rest ih =>
    intro cb
    rw [CBrun_cons, ih, call_preserves_threshold]

/-- CBrun preserves the CLOSED-below-threshold invariant. -/
theorem CBrun_closed_bound (steps : List (ℚ × CallOutcome)) :
    ∀ cb : CircuitBreaker, 1 ≤ cb.failure_threshold →
      (cb.state = CBState.CLOSED → cb.failure_count < cb.failure_threshold) →
      ((CBrun cb steps).state = CBState.CLOSED →
        (CBrun cb steps).failure_count < (CBrun cb steps).failure_threshold) := by
  induction steps with
  | nil => intro cb _ hcb; exact hcb
  | cons s rest ih =>
    intro cb ht hcb
    rw [CBrun_cons]
    refine ih _ ?_ ?_
    · rw [call_preserves_threshold]
      exact ht
    · exact call_closed_bound cb s.1 s.2 ht hcb

/-- C6: from a fresh circuit breaker with threshold t at least 1, after
any sequence of protected-call outcomes the breaker is CLOSED only while
its failure count is strictly below t, and a call that transitions the
breaker from CLOSED to OPEN leaves the failure count exactly at t. -/
theorem breaker_opens_at_threshold (t : ℕ) (ht : 1 ≤ t) (tmo : ℚ)
    (steps : List (ℚ × CallOutcome)) :
    ((CBrun (CircuitBreaker.init t tmo) steps).state = CBState.CLOSED →
      (CBrun (CircuitBreaker.init t tmo) steps).failure_count < t) ∧
    (∀ (now : ℚ) (o : CallOutcome),
      (CBrun (CircuitBreaker.init t tmo) steps).state = CBState.CLOSED →
      ((CBrun (CircuitBreaker.init t tmo) steps).call now o).cb.state = CBState.OPEN →
      ((CBrun (CircuitBreaker.init t tmo) steps).call now o).cb.failure_count = t) := by
  have hth : (CBrun (CircuitBreaker.init t tmo) steps).failure_threshold = t :=
    CBrun_threshold steps (CircuitBreaker.init t tmo)
  have hbound := CBrun_closed_bound steps (CircuitBreaker.init t tmo) ht (fun _ => ht)
  constructor
  · intro h
    have := hbound h
    rwa [hth] at this
  · intro now o hclosed hopen
    have hlt : (CBrun (CircuitBreaker.init t tmo) steps).failure_count <
        (CBrun (CircuitBreaker.init t tmo) steps).failure_threshold := hbound hclosed
    have := call_closed_to_open_count _ now o hclosed hlt hopen
    rwa [hth] at this

/-- C6 witness: with the default threshold 5, after a single failure the
breaker is still CLOSED and its count is below 5. -/
theorem breaker_opens_at_threshold_witness :
    (CBrun (CircuitBreaker.init 5 60) [(0, CallOutcome.failure)]).failure_count < 5 :=
  (breaker_opens_at_threshold 5 (by norm_num) 60 [(0, CallOutcome.failure)]).1
    (by simp [CBrun, CircuitBreaker.call, CircuitBreaker.init])

/-- C7: while the breaker is OPEN and the timeout has not yet elapsed
since the last failure, every call is rejected without invoking the
underlying operation and without changing the breaker (the output is the
same for every outcome, so the operation cannot have run); once
now - lastFailureTime exceeds the timeout, the next call does invoke the
operation as a HALF_OPEN trial, and a successful trial closes the breaker
and resets the failure count to 0. -/
theorem circuit_open_gates (cb : CircuitBreaker) (now : ℚ)
    (ho : cb.state = CBState.OPEN) :
    (now - cb.last_failure_time.getD 0 ≤ cb.timeout →
      ∀ o, cb.call now o =
        { cb := cb, invoked := false, result := CallResult.circuitOpenError }) ∧
    (cb.timeout < now - cb.last_failure_time.getD 0 →
      (∀ o, (cb.call now o).invoked = true) ∧
      (cb.call now CallOutcome.success).cb.state = CBState.CLOSED ∧
      (cb.call now CallOutcome.success).cb.failure_count = 0) := by
  constructor
  · intro hle o
    unfold CircuitBreaker.call
    rw [if_pos ⟨ho, not_lt.mpr hle⟩]
  · intro hgt
    have hcond : ¬(cb.state = CBState.OPEN ∧
        ¬(now - cb.last_failure_time.getD 0 > cb.timeout)) :=
      fun h => h.2 hgt
    refine ⟨fun o => ?_, ?_, ?_⟩
    · cases o <;> simp [CircuitBreaker.call, hcond, ho] <;> split_ifs <;>
        first
        | rfl
        | linarith
    · simp [CircuitBreaker.call, hcond, ho]
      rw [if_neg (show ¬ now ≤ cb.timeout + cb.last_failure_time.getD 0 by linarith)]
    · simp [CircuitBreaker.call, hcond, ho]
      rw [if_neg (show ¬ now ≤ cb.timeout + cb.last_failure_time.getD 0 by linarith)]

/-- C7 witness: an OPEN breaker (last failure at time 0, timeout 60)
rejects unchanged at time 30, and a successful trial at time 100 closes
it. -/
theorem circuit_open_gates_witness :
    (CircuitBreaker.call
      { failure_threshold := 5, timeout := 60, failure_count := 5
      , last_failure_time := some 0, state := CBState.OPEN } 30 CallOutcome.failure).invoked
        = false ∧
    (CircuitBreaker.call
      { failure_threshold := 5, timeout := 60, failure_count := 5
      , last_failure_time := some 0, state := CBState.OPEN } 100 CallOutcome.success).cb.state
        = CBState.CLOSED := by
  constructor
  · rw [(circuit_open_gates _ 30 rfl).1 (by norm_num) CallOutcome.failure]
  · exact ((circuit_open_gates _ 100 rfl).2 (by norm_num)).2.1

/-- C10: a successful call while the breaker is CLOSED leaves the breaker
(in particular its failure count) unchanged; within call, the failure
count only becomes 0 from a nonzero value through a successful trial in a
non-CLOSED state (the HALF_OPEN trial); the manual reset also zeroes the
count; and failures separated by successes still accumulate: from a fresh
breaker with threshold 5, five failures interleaved with successes open
the breaker with count 5. -/
theorem breaker_count_accumulates :
    (∀ (cb : CircuitBreaker) (now : ℚ), cb.state = CBState.CLOSED →
      (cb.call now CallOutcome.success).cb = cb) ∧
    (∀ (cb : CircuitBreaker) (now : ℚ) (o : CallOutcome),
      (cb.call now o).cb.failure_count = 0 → cb.failure_count ≠ 0 →
      o = CallOutcome.success ∧ cb.state ≠ CBState.CLOSED) ∧
    (∀ cb : CircuitBreaker, (CircuitBreaker.reset cb).failure_count = 0) ∧
    ((CBrun (CircuitBreaker.init 5 60) alternatingSteps).state = CBState.OPEN ∧
     (CBrun (CircuitBreaker.init 5 60) alternatingSteps).failure_count = 5) := by
  refine ⟨?_, ?_, ?_, ?_⟩
  · exact fun cb now hc => call_closed_success_id cb now hc
  · intro cb now o h0 hne
    cases o with
    | success =>
      refine ⟨rfl, fun hc => hne ?_⟩
      rw [call_closed_success_id cb now hc] at h0
      exact h0
    | failure =>
      exfalso
      simp only [CircuitBreaker.call] at h0
      split_ifs at h0 <;> simp_all
  · intro cb
    rfl
  · constructor <;>
      simp [CBrun, alternatingSteps, CircuitBreaker.call, CircuitBreaker.init]

/-- C10 witness: a success on a CLOSED breaker with two accumulated
failures leaves it unchanged. -/
theorem breaker_count_accumulates_witness :
    (CircuitBreaker.call
      { failure_threshold := 5, timeout := 60, failure_count := 2
      , last_failure_time := none, state := CBState.CLOSED } 0 CallOutcome.success).cb =
      { failure_threshold := 5, timeout := 60, failure_count := 2
      , last_failure_time := none, state := CBState.CLOSED } :=
  breaker_count_accumulates.1 _ 0 rfl

/-- A poll reporting status complete returns the confirmation built from
the trade book fill and that poll's filledshares. -/
theorem confirm_from_complete (polls : ℕ → PollOutcome) (fp : ℚ) (ft : String)
    (i fuel fs : ℕ) (hp : polls i = PollOutcome.ok "complete" fs) :
    confirm_from polls (some (fp, ft)) i (fuel + 1) =
      { confirmed := true, status := "complete", fill_price := some fp
      , fill_quantity := some fs, fill_time := some ft } := by
  simp [confirm_from, hp]

/-- A poll reporting a terminal rejected or cancelled status returns the
unconfirmed result immediately. -/
theorem confirm_from_terminal (polls : ℕ → PollOutcome) (tb : Option (ℚ × String))
    (i fuel fs : ℕ) (st : String)
    (hp : polls i = PollOutcome.ok st fs)
    (hst : st = "rejected" ∨ st = "cancelled") :
    confirm_from polls tb i (fuel + 1) =
      { confirmed := false, status := st, fill_price := none
      , fill_quantity := none, fill_time := none } := by
  have hc : st ≠ "complete" := by
    rcases hst with h | h <;> subst h <;> decide
  simp [confirm_from, hp, hc, hst]

/-- A non-terminal poll consumes one second of the budget and continues
with the next poll. -/
theorem confirm_from_step (polls : ℕ → PollOutcome) (tb : Option (ℚ × String))
    (i fuel : ℕ) (h : nonTerminalPoll (polls i)) :
    confirm_from polls tb i (fuel + 1) = confirm_from polls tb (i + 1) fuel := by
  cases hp : polls i with
  | exn => simp [confirm_from, hp]
  | ok st fs =>
    rw [hp] at h
    obtain ⟨h1, h2, h3⟩ := h
    simp [confirm_from, hp, h1, h2, h3]

/-- When every poll inside the budget is non-terminal, the loop times out. -/
theorem confirm_from_all_nonterminal (polls : ℕ → PollOutcome)
    (tb : Option (ℚ × String)) :
    ∀ (fuel i : ℕ), (∀ j, j < fuel → nonTerminalPoll (polls (i + j))) →
      confirm_from polls tb i fuel = timeout_confirmation := by
  intro fuel
  induction fuel with
  | zero => intro i _; rfl
  | succ n ih =>
    intro i h
    have h0 : nonTerminalPoll (polls i) := by
      have := h 0 (Nat.succ_pos n)
      simpa using this
    rw [confirm_from_step polls tb i n h0]
    refine ih (i + 1) (fun j hj => ?_)
    have := h (j + 1) (by omega)
    rwa [show i + (j + 1) = i + 1 + j by omega] at this

/-- C5: confirm_order_placement polls at a fixed one-second interval;
the status sequence open, open, complete confirms on the third poll with
the fill price/time from the execution record and that poll's
filledshares, for any budget of at least 3 seconds; a first poll of
rejected or cancelled returns that terminal status unconfirmed
immediately — the result is the same for every continuation of the
stream, so no further poll is consulted; and when every poll within the
budget is non-terminal the result is the unconfirmed timeout record,
returned as a value rather than raised as an error. -/
theorem confirm_order_spec :
    (∀ (fs : ℕ) (fp : ℚ) (ft : String) (w : ℕ), 3 ≤ w →
      confirm_order_placement (openOpenComplete fs) (some (fp, ft)) w =
        { confirmed := true, status := "complete", fill_price := some fp
        , fill_quantity := some fs, fill_time := some ft }) ∧
    (∀ (polls : ℕ → PollOutcome) (tb : Option (ℚ × String)) (w fs : ℕ) (st : String),
      1 ≤ w → polls 0 = PollOutcome.ok st fs → (st = "rejected" ∨ st = "cancelled") →
      confirm_order_placement polls tb w =
        { confirmed := false, status := st, fill_price := none
        , fill_quantity := none, fill_time := none }) ∧
    (∀ (polls : ℕ → PollOutcome) (tb : Option (ℚ × String)) (w : ℕ),
      (∀ i, i < w → nonTerminalPoll (polls i)) →
      confirm_order_placement polls tb w = timeout_confirmation) := by
  refine ⟨?_, ?_, ?_⟩
  · intro fs fp ft w hw
    obtain ⟨k, rfl⟩ := Nat.exists_eq_add_of_le hw
    unfold confirm_order_placement
    rw [show 3 + k = (2 + k) + 1 by omega,
        confirm_from_step _ _ 0 (2 + k)
          (show nonTerminalPoll (openOpenComplete fs 0) from
            ⟨by decide, by decide, by decide⟩),
        show 2 + k = (1 + k) + 1 by omega,
        confirm_from_step _ _ 1 (1 + k)
          (show nonTerminalPoll (openOpenComplete fs 1) from
            ⟨by decide, by decide, by decide⟩),
        show 1 + k = k + 1 by omega,
        confirm_from_complete (openOpenComplete fs) fp ft 2 k fs rfl]
  · intro polls tb w fs st hw hp hst
    obtain ⟨k, rfl⟩ := Nat.exists_eq_add_of_le hw
    unfold confirm_order_placement
    rw [show 1 + k = k + 1 by omega]
    exact confirm_from_terminal polls tb 0 k fs st hp hst
  · intro polls tb w h
    unfold confirm_order_placement
    exact confirm_from_all_nonterminal polls tb w 0
      (fun j hj => by simpa using h j (by omega))

/-- C5 witness: the open, open, complete sequence with a 5-second budget
confirms with fill price 101, quantity 75 and the trade book fill time. -/
theorem confirm_order_spec_witness :
    confirm_order_placement (openOpenComplete 75) (some (101, "0915")) 5 =
      { confirmed := true, status := "complete", fill_price := some 101
      , fill_quantity := some 75, fill_time := some "0915" } :=
  confirm_order_spec.1 75 101 "0915" 5 (by norm_num)

/-- C9: whenever order submission yields a response that validates to a
non-empty order identifier, place_buy_order and place_sell_order return
success regardless of the confirmation outcome: the confirmation — for
any poll stream whatsoever, including rejected, cancelled or timing-out
ones — is attached to the result but never makes success false. -/
theorem order_success_ignores_confirmation (msg oid : String) (hoid : oid ≠ "")
    (polls : ℕ → PollOutcome) (tb : Option (ℚ × String)) (exit_price : Option ℚ) :
    (place_buy_order (BrokerResponse.resp false msg (some oid)) polls tb).success = true ∧
    (place_buy_order (BrokerResponse.resp false msg (some oid)) polls tb).order_id
      = some oid ∧
    (place_buy_order (BrokerResponse.resp false msg (some oid)) polls tb).confirmation =
      some (confirm_order_placement polls tb 5) ∧
    (place_sell_order "MARKET" exit_price (BrokerResponse.resp false msg (some oid))
        polls tb).success = true ∧
    (place_sell_order "MARKET" exit_price (BrokerResponse.resp false msg (some oid))
        polls tb).confirmation = some (confirm_order_placement polls tb 5) := by
  have hattB : place_order_attempt BUY_ORDER_PARAM_KEYS
      (BrokerResponse.resp false msg (some oid)) =
      (Except.ok (BrokerResponse.resp false msg (some oid)), 1) := by
    simp only [place_order_attempt]
    rw [if_neg (by decide)]
    simp
  have hattS : place_order_attempt SELL_ORDER_PARAM_KEYS
      (BrokerResponse.resp false msg (some oid)) =
      (Except.ok (BrokerResponse.resp false msg (some oid)), 1) := by
    simp only [place_order_attempt]
    rw [if_neg (by decide)]
    simp
  have hval : validate_order_response (BrokerResponse.resp false msg (some oid)) =
      (true, "Success", some oid) := by
    simp [validate_order_response, hoid]
  refine ⟨?_, ?_, ?_, ?_, ?_⟩
  · simp [place_buy_order, place_order, retry_on_failure, retry_exec_ok, hattB, hval]
  · simp [place_buy_order, place_order, retry_on_failure, retry_exec_ok, hattB, hval]
  · simp [place_buy_order, place_order, retry_on_failure, retry_exec_ok, hattB, hval]
  · unfold place_sell_order
    rw [if_neg (fun h => absurd h.1 (by decide)), if_neg (by decide)]
    simp [place_order, retry_on_failure, retry_exec_ok, hattS, hval]
  · unfold place_sell_order
    rw [if_neg (fun h => absurd h.1 (by decide)), if_neg (by decide)]
    simp [place_order, retry_on_failure, retry_exec_ok, hattS, hval]

/-- C9 witness: a buy whose submission succeeds but whose confirmation
comes back rejected still reports success, with the rejected confirmation
attached. -/
theorem order_success_ignores_confirmation_witness :
    (place_buy_order (BrokerResponse.resp false "ok" (some "OID1"))
        rejectedPolls none).success = true ∧
    (place_buy_order (BrokerResponse.resp false "ok" (some "OID1"))
        rejectedPolls none).confirmation =
      some { confirmed := false, status := "rejected", fill_price := none
           , fill_quantity := none, fill_time := none } := by
  have h := order_success_ignores_confirmation "ok" "OID1" (by decide)
    rejectedPolls none none
  refine ⟨h.1, ?_⟩
  rw [h.2.2.1]
  rw [show confirm_order_placement rejectedPolls none 5 =
      confirm_from rejectedPolls none 0 (4 + 1) from rfl,
    confirm_from_terminal rejectedPolls none 0 4 0 "rejected" rfl (Or.inl rfl)]
